import Mathlib

/-!
Verification development for the IB paper-trading tool
(`agent_tools/ib_paper_trading.py`).

The Python module is shallowly embedded: each tool function (`buy`, `sell`,
`get_ib_account_summary`) becomes a pure Lean function over an explicit
environment describing the external collaborators (config values, gateway
responses, price lookup, ledger persistence), and it returns the produced
result dictionary together with the sequence of externally visible events
(gateway connect/disconnect, lock acquire/release, order placement, ledger
append) and the resulting ledger.

Python dictionaries of numbers are modelled as association lists over `Rat`;
optional dictionary keys are modelled with `Option` so that `d.get(k, dflt)`
is faithfully `(field).getD dflt` exactly when the Python key can be absent.

The helpers `get_latest_position`, `get_open_prices`, `get_config_value` and
`write_config_value` are imported by the module from `tools/` and their code
is not part of this repository snapshot; they are modelled from the spec
(see the doc comments on the corresponding definitions).
-/

namespace IBTrade

attribute [local semireducible] Rat.mul Rat.add Rat.sub Nat.gcd

/-- A Python dict value map for positions: association list from symbol
(including the reserved symbol CASH) to a numeric value. First binding of a
key wins, as in a Python dict there is at most one binding per key; `dset`
keeps that invariant. -/
abbrev Position := List (String × Rat)

/-- Python `d.get(k, dflt)`. -/
def dget (d : Position) (k : String) (dflt : Rat) : Rat :=
  match d.find? (fun kv => kv.1 == k) with
  | some kv => kv.2
  | none => dflt

/-- Python `d[k]` as an option (`none` when the key is absent). -/
def dfind (d : Position) (k : String) : Option Rat :=
  match d.find? (fun kv => kv.1 == k) with
  | some kv => some kv.2
  | none => none

/-- Python `k in d`. -/
def dmem (d : Position) (k : String) : Bool :=
  (d.find? (fun kv => kv.1 == k)).isSome

/-- Python `d[k] = v`: update in place when the key exists, else append. -/
def dset : Position → String → Rat → Position
  | [], k, v => [(k, v)]
  | kv :: rest, k, v =>
      if kv.1 == k then (k, v) :: rest else kv :: dset rest k v

/-- The dict returned by `_execute_ib_order` (lines 91-143). Every field
except `success` models a key that may be absent from the dict. -/
structure ExecResult where
  success : Bool
  order_id : Option Nat := none
  symbol : Option String := none
  action : Option String := none
  quantity : Option Int := none
  status : Option String := none
  fill_price : Option Rat := none
  commission : Option Rat := none
  error : Option String := none
deriving DecidableEq

/-- The gateway-side outcome of qualifying/placing one market order, as
observed by `_execute_ib_order`: either an exception was raised (`exn`),
or the trade object carries an order id, a status string, an average fill
price and a commission. -/
structure GatewayResp where
  exn : Option String
  orderId : Nat
  status : String
  avgFillPrice : Rat
  commission : Rat
deriving DecidableEq

/-- Embedding of `_execute_ib_order` (ib_paper_trading.py lines 91-143):
statuses Filled/PreSubmitted/Submitted count as success and the success dict
always contains a `fill_price` key, set to `avgFillPrice` when positive and
to 0 otherwise; other statuses and exceptions produce a failure dict with no
`fill_price` key. -/
def execute_ib_order (g : GatewayResp) (symbol : String) (quantity : Int)
    (action : String) : ExecResult :=
  match g.exn with
  | some e => { success := false, error := some e }
  | none =>
      if g.status == "Filled" || g.status == "PreSubmitted" || g.status == "Submitted" then
        { success := true
          order_id := some g.orderId
          symbol := some symbol
          action := some action
          quantity := some quantity
          status := some g.status
          fill_price := some (if g.avgFillPrice > 0 then g.avgFillPrice else 0)
          commission := some g.commission }
      else
        { success := false
          error := some ("Order not filled. Status: " ++ g.status)
          order_id := some g.orderId }

/-- One line of `position.jsonl` as written by `buy`/`sell`
(lines 229-242 and 366-379). -/
structure TradeRecord where
  date : Option String
  id : Nat
  action : String
  symbol : String
  amount : Int
  ib_order_id : Option Nat
  fill_price : Rat
  commission : Rat
  positions : Position
  ib_execution : ExecResult
deriving DecidableEq

/-- The per-identity append-only ledger (`position.jsonl`). -/
abbrev Ledger := List TradeRecord

/-- One fold step selecting a record with the highest `id` (later records win
ties, matching file order under single-writer discipline). -/
def maxRecStep (acc : Option TradeRecord) (r : TradeRecord) : Option TradeRecord :=
  match acc with
  | none => some r
  | some m => if r.id ≥ m.id then some r else some m

/-- The record of the ledger with the highest `id`, if any. -/
def maxRec (l : Ledger) : Option TradeRecord :=
  l.foldl maxRecStep none

/-- Modelled from the spec: `get_latest_position` (imported from
`tools/price_tools`, whose source is not part of this repository snapshot).
Spec section 4.1: readLatest returns the snapshot and sequence of the
highest-sequence_id record, and a well-defined empty state
(CASH = configured initial cash, sequence_id = 0) if no records exist yet. -/
def get_latest_position (initCash : Rat) (l : Ledger) : Position × Nat :=
  match maxRec l with
  | none => ([("CASH", initCash)], 0)
  | some r => (r.positions, r.id)

/-- Externally visible events of one tool-function run, in order. -/
inductive Ev
  | connect
  | disconnect
  | lockAcquire
  | lockRelease
  | ledgerRead
  | priceLookup
  | remoteQuery
  | orderPlace
  | ledgerAppend
  | ifTradeWrite
deriving DecidableEq

/-- An error result dict as returned by `buy`/`sell`. Every such dict has an
`error` string plus `symbol` and `date`; the remaining fields model keys
present only in some of the error dicts. -/
structure ErrDict where
  error : String
  symbol : Option String := none
  date : Option String := none
  required_cash : Option Rat := none
  cash_available : Option Rat := none
  haveShares : Option Rat := none
  want_to_sell : Option Int := none
  ib_position : Option Int := none
  execution_details : Option ExecResult := none
deriving DecidableEq

/-- What one `buy`/`sell` call produces towards its caller: a raised
`ValueError`, an error dict, or the updated-position dict (which also carries
`execution_details` and `actual_price`). -/
inductive TradeOutcome
  | raisedValueError (msg : String)
  | errResult (e : ErrDict)
  | okResult (positions : Position) (execution_details : ExecResult) (actual_price : Rat)
deriving DecidableEq

/-- Result of running one tool function: the outcome, the event trace, and
the ledger after the call. -/
structure RunResult where
  outcome : TradeOutcome
  events : List Ev
  ledger : Ledger
deriving DecidableEq

/-- The environment of one `buy`/`sell` call: configuration values, the
configured initial cash (used by the modelled `get_latest_position` when the
ledger is empty), whether `_connect_ib` raises, the reference-price lookup
`get_open_prices` for the trade date, the remote IB position per symbol, the
gateway response for the order this call places, and whether appending to
`position.jsonl` raises an I/O error. -/
structure Env where
  signature : Option String
  today_date : Option String
  initCash : Rat
  connectErr : Option String
  priceOf : String → Option Rat
  remotePos : String → Int
  gateway : GatewayResp
  appendErr : Option String

/-- The message of the `ConnectionError` raised by `_connect_ib`
(lines 54-70). -/
def connectFailMsg (e : String) : String :=
  "Failed to connect to IB: " ++ e

/-- Python `f"...{execution_result.get('error')}"`: an absent key prints as
None. -/
def optStr : Option String → String
  | some s => s
  | none => "None"

/-- Embedding of `buy` from the first lock release onward
(ib_paper_trading.py lines 183-265): price lookup, advisory cash check,
order execution, position update, ledger append. `current_position` and
`current_action_id` are the snapshot read under the first lock; `ledger` is
the ledger at append time (in the sequential `buy` the two coincide, but the
lock is released in between, so an interleaved schedule may append to a
ledger that has grown since the read). -/
def buyAfterRead (env : Env) (symbol : String) (amount : Int)
    (current_position : Position) (current_action_id : Nat)
    (ledger : Ledger) : RunResult :=
  match env.priceOf symbol with
  | none =>
      { outcome := .errResult
          { error := "Symbol " ++ symbol ++ " not found in price data"
            symbol := some symbol, date := env.today_date }
        events := [Ev.priceLookup, Ev.disconnect]
        ledger := ledger }
  | some this_symbol_price =>
      let required_cash := this_symbol_price * (amount : Rat)
      if dget current_position "CASH" 0 < required_cash then
        { outcome := .errResult
            { error := "Insufficient cash (local record)"
              required_cash := some required_cash
              cash_available := some (dget current_position "CASH" 0)
              symbol := some symbol, date := env.today_date }
          events := [Ev.priceLookup, Ev.disconnect]
          ledger := ledger }
      else
        let execution_result := execute_ib_order env.gateway symbol amount "BUY"
        if execution_result.success = false then
          { outcome := .errResult
              { error := "IB order failed: " ++ optStr execution_result.error
                symbol := some symbol, date := env.today_date
                execution_details := some execution_result }
            events := [Ev.priceLookup, Ev.orderPlace, Ev.disconnect]
            ledger := ledger }
        else
          let actual_price := execution_result.fill_price.getD this_symbol_price
          let actual_cost := actual_price * (amount : Rat)
          let pos1 := dset current_position "CASH"
            (dget current_position "CASH" 0 - actual_cost)
          let new_position := dset pos1 symbol (dget pos1 symbol 0 + (amount : Rat))
          match env.appendErr with
          | some msg =>
              { outcome := .errResult
                  { error := "Unexpected error: " ++ msg
                    symbol := some symbol, date := env.today_date }
                events := [Ev.priceLookup, Ev.orderPlace, Ev.lockAcquire,
                           Ev.lockRelease, Ev.disconnect]
                ledger := ledger }
          | none =>
              let record : TradeRecord :=
                { date := env.today_date
                  id := current_action_id + 1
                  action := "buy"
                  symbol := symbol
                  amount := amount
                  ib_order_id := execution_result.order_id
                  fill_price := actual_price
                  commission := execution_result.commission.getD 0
                  positions := new_position
                  ib_execution := execution_result }
              { outcome := .okResult new_position execution_result actual_price
                events := [Ev.priceLookup, Ev.orderPlace, Ev.lockAcquire,
                           Ev.ledgerAppend, Ev.lockRelease, Ev.ifTradeWrite,
                           Ev.disconnect]
                ledger := ledger ++ [record] }

/-- Embedding of `buy` (ib_paper_trading.py lines 146-265). The SIGNATURE
config value is read first and its absence raises `ValueError`; then the
amount validation, then the gateway connect, then (under the per-identity
file lock) the latest-position read, then `buyAfterRead`. -/
def buy (env : Env) (ledger : Ledger) (symbol : String) (amount : Int) :
    RunResult :=
  match env.signature with
  | none =>
      { outcome := .raisedValueError "SIGNATURE environment variable is not set"
        events := [], ledger := ledger }
  | some _ =>
      if amount ≤ 0 then
        { outcome := .errResult
            { error := "Amount must be positive"
              symbol := some symbol, date := env.today_date }
          events := [], ledger := ledger }
      else
        match env.connectErr with
        | some e =>
            { outcome := .errResult
                { error := connectFailMsg e
                  symbol := some symbol, date := env.today_date }
              events := [], ledger := ledger }
        | none =>
            let rp := get_latest_position env.initCash ledger
            let r := buyAfterRead env symbol amount rp.1 rp.2 ledger
            { r with events := [Ev.connect, Ev.lockAcquire, Ev.ledgerRead,
                                Ev.lockRelease] ++ r.events }

/-- Embedding of `sell` (ib_paper_trading.py lines 268-402): like `buy` but
with the local-holdings check, the remote IB position cross-check, the
symbol quantity decremented before CASH is credited, and no cash check. -/
def sell (env : Env) (ledger : Ledger) (symbol : String) (amount : Int) :
    RunResult :=
  match env.signature with
  | none =>
      { outcome := .raisedValueError "SIGNATURE environment variable is not set"
        events := [], ledger := ledger }
  | some _ =>
      if amount ≤ 0 then
        { outcome := .errResult
            { error := "Amount must be positive"
              symbol := some symbol, date := env.today_date }
          events := [], ledger := ledger }
      else
        match env.connectErr with
        | some e =>
            { outcome := .errResult
                { error := connectFailMsg e
                  symbol := some symbol, date := env.today_date }
              events := [], ledger := ledger }
        | none =>
            let rp := get_latest_position env.initCash ledger
            let current_position := rp.1
            let current_action_id := rp.2
            let pre := [Ev.connect, Ev.lockAcquire, Ev.ledgerRead, Ev.lockRelease]
            if dmem current_position symbol = false then
              { outcome := .errResult
                  { error := "No position for " ++ symbol
                    symbol := some symbol, date := env.today_date }
                events := pre ++ [Ev.disconnect], ledger := ledger }
            else if dget current_position symbol 0 < (amount : Rat) then
              { outcome := .errResult
                  { error := "Insufficient shares (local record)"
                    haveShares := some (dget current_position symbol 0)
                    want_to_sell := some amount
                    symbol := some symbol, date := env.today_date }
                events := pre ++ [Ev.disconnect], ledger := ledger }
            else
              match env.priceOf symbol with
              | none =>
                  { outcome := .errResult
                      { error := "Symbol " ++ symbol ++ " not found in price data"
                        symbol := some symbol, date := env.today_date }
                    events := pre ++ [Ev.priceLookup, Ev.disconnect]
                    ledger := ledger }
              | some this_symbol_price =>
                  let ib_position := env.remotePos symbol
                  if ib_position < amount then
                    { outcome := .errResult
                        { error := "Insufficient shares in IB account"
                          ib_position := some ib_position
                          want_to_sell := some amount
                          symbol := some symbol, date := env.today_date }
                      events := pre ++ [Ev.priceLookup, Ev.remoteQuery,
                                        Ev.disconnect]
                      ledger := ledger }
                  else
                    let execution_result := execute_ib_order env.gateway symbol amount "SELL"
                    if execution_result.success = false then
                      { outcome := .errResult
                          { error := "IB order failed: " ++ optStr execution_result.error
                            symbol := some symbol, date := env.today_date
                            execution_details := some execution_result }
                        events := pre ++ [Ev.priceLookup, Ev.remoteQuery,
                                          Ev.orderPlace, Ev.disconnect]
                        ledger := ledger }
                    else
                      let actual_price := execution_result.fill_price.getD this_symbol_price
                      let actual_proceeds := actual_price * (amount : Rat)
                      let pos1 := dset current_position symbol
                        (dget current_position symbol 0 - (amount : Rat))
                      let new_position := dset pos1 "CASH"
                        (dget pos1 "CASH" 0 + actual_proceeds)
                      match env.appendErr with
                      | some msg =>
                          { outcome := .errResult
                              { error := "Unexpected error: " ++ msg
                                symbol := some symbol, date := env.today_date }
                            events := pre ++ [Ev.priceLookup, Ev.remoteQuery,
                                              Ev.orderPlace, Ev.lockAcquire,
                                              Ev.lockRelease, Ev.disconnect]
                            ledger := ledger }
                      | none =>
                          let record : TradeRecord :=
                            { date := env.today_date
                              id := current_action_id + 1
                              action := "sell"
                              symbol := symbol
                              amount := amount
                              ib_order_id := execution_result.order_id
                              fill_price := actual_price
                              commission := execution_result.commission.getD 0
                              positions := new_position
                              ib_execution := execution_result }
                          { outcome := .okResult new_position execution_result actual_price
                            events := pre ++ [Ev.priceLookup, Ev.remoteQuery,
                                              Ev.orderPlace, Ev.lockAcquire,
                                              Ev.ledgerAppend, Ev.lockRelease,
                                              Ev.ifTradeWrite, Ev.disconnect]
                            ledger := ledger ++ [record] }

/-- One entry of `ib.accountValues()`, as consumed by
`get_ib_account_summary`. -/
structure AccountValue where
  tag : String
  value : Rat
deriving DecidableEq

/-- One entry of `ib.positions()`; `symbol` is `none` when the contract has
no symbol attribute (the `hasattr` guard in the source). -/
structure IbPosEntry where
  symbol : Option String
  position : Int
  marketPrice : Rat
  marketValue : Rat
  avgCost : Rat
deriving DecidableEq

/-- Environment of one `get_ib_account_summary` call: whether `_connect_ib`
raises, whether reading account values/positions raises after a successful
connect, and the data returned otherwise. -/
structure SummaryEnv where
  connectErr : Option String
  fetchErr : Option String
  accountValues : List AccountValue
  positions : List IbPosEntry

/-- One entry of the `positions` list in the account-summary result. -/
structure PositionSummary where
  symbol : String
  position : Int
  market_price : Rat
  market_value : Rat
  avg_cost : Rat
deriving DecidableEq

/-- Outcome of `get_ib_account_summary`: the success dict or the
`success: False` dict produced by the exception handler. -/
inductive SummaryOutcome
  | okSummary (account_summary : List (String × Rat)) (positions : List PositionSummary)
  | failure (error : String)
deriving DecidableEq

/-- Result of one `get_ib_account_summary` run: outcome plus gateway event
trace. -/
structure SummaryRun where
  outcome : SummaryOutcome
  events : List Ev
deriving DecidableEq

/-- The account-value tags kept by `get_ib_account_summary` (line 424). -/
def summaryTags : List String :=
  ["NetLiquidation", "CashBalance", "BuyingPower", "GrossPositionValue"]

/-- Embedding of `get_ib_account_summary` (ib_paper_trading.py lines
405-454). Everything runs inside one `try`: a connect failure or a fetch
failure lands in the generic handler, which returns `success: False` without
any cleanup; `ib.disconnect()` is reached only on the success path. -/
def get_ib_account_summary (env : SummaryEnv) : SummaryRun :=
  match env.connectErr with
  | some e => { outcome := .failure (connectFailMsg e), events := [] }
  | none =>
      match env.fetchErr with
      | some e => { outcome := .failure e, events := [Ev.connect] }
      | none =>
          let account_summary :=
            (env.accountValues.filter (fun v => summaryTags.contains v.tag)).map
              (fun v => (v.tag, v.value))
          let position_summary :=
            env.positions.filterMap (fun p =>
              p.symbol.map (fun s =>
                ({ symbol := s, position := p.position
                   market_price := p.marketPrice
                   market_value := p.marketValue
                   avg_cost := p.avgCost } : PositionSummary)))
          { outcome := .okSummary account_summary position_summary
            events := [Ev.connect, Ev.disconnect] }

/-- Interleaved execution of two `buy` calls on the same identity in the
schedule: request 1 reads the latest position under the lock, request 2 reads
the latest position under the lock, request 1 runs the rest of its body
(order execution and ledger append), then request 2 runs the rest of its
body. This schedule is permitted by the source's locking, because
`buy` holds the per-identity file lock only for the read (lines 180-181) and
again, separately, for the append (lines 227-244); it is released in
between, so both reads can precede both appends. Both requests are assumed
to have passed the shared-state-free prefix (signature present, positive
amount, successful connect), which touches no shared state. -/
def twoBuysReadsFirst (env1 env2 : Env) (ledger : Ledger)
    (sym1 : String) (amt1 : Int) (sym2 : String) (amt2 : Int) :
    RunResult × RunResult :=
  let rp1 := get_latest_position env1.initCash ledger
  let rp2 := get_latest_position env2.initCash ledger
  let r1 := buyAfterRead env1 sym1 amt1 rp1.1 rp1.2 ledger
  let r2 := buyAfterRead env2 sym2 amt2 rp2.1 rp2.2 r1.ledger
  (r1, r2)

/-- One buy or sell request in a sequential history: the direction, the
arguments, and the environment (gateway responses etc.) of that request. -/
structure OpReq where
  isBuy : Bool
  symbol : String
  amount : Int
  env : Env

/-- Sequential execution of a list of buy/sell requests on one identity,
threading the ledger from each call to the next. -/
def runOps (ledger : Ledger) : List OpReq → Ledger
  | [] => ledger
  | op :: rest =>
      let r := if op.isBuy then buy op.env ledger op.symbol op.amount
               else sell op.env ledger op.symbol op.amount
      runOps r.ledger rest

/-- The `sequence_id` column of the ledger, in file order. -/
def seqIds (l : Ledger) : List Nat :=
  l.map TradeRecord.id

/-- A ledger whose sequence ids are exactly 1, 2, ..., length: strictly
increasing, gap-free, duplicate-free, and starting right after the empty
state's sequence_id 0. -/
def goodIds (l : Ledger) : Prop :=
  seqIds l = List.range' 1 l.length

/-! Concrete environments used by witnesses and counterexamples. -/

/-- A gateway response for an order that fills at price 55 with a reported
commission of 2. -/
def gwFilled55 : GatewayResp :=
  { exn := none, orderId := 7, status := "Filled", avgFillPrice := 55, commission := 2 }

/-- A gateway response reporting a successful (Filled) order whose average
fill price is still 0 (zero/unknown fill price). -/
def gwFilledZero : GatewayResp :=
  { exn := none, orderId := 7, status := "Filled", avgFillPrice := 0, commission := 1 }

/-- A gateway response for an order that fills at price 30. -/
def gwFilled30 : GatewayResp :=
  { exn := none, orderId := 8, status := "Filled", avgFillPrice := 30, commission := 0 }

/-- A fully healthy environment: signature set, reference price 50 for XYZ,
remote position 10 for every symbol, gateway fills at 55, append succeeds. -/
def envOk : Env :=
  { signature := some "agent1"
    today_date := some "2025-01-02"
    initCash := 10000
    connectErr := none
    priceOf := fun s => if s == "XYZ" then some 50 else none
    remotePos := fun _ => 10
    gateway := gwFilled55
    appendErr := none }

/-- A ledger with one committed buy: positions CASH 9500, XYZ 10 at
sequence_id 1 (the spec's first scenario state). -/
def ledger1 : Ledger :=
  [{ date := some "2025-01-02", id := 1, action := "buy", symbol := "XYZ"
     amount := 10, ib_order_id := some 3, fill_price := 50, commission := 0
     positions := [("CASH", 9500), ("XYZ", 10)]
     ib_execution := { success := true } }]

/-! Helper lemmas. -/

/-- Updating key `k` leaves the binding of any other key unchanged. -/
theorem dfind_dset_ne (d : Position) (k k' : String) (v : Rat) (h : k' ≠ k) :
    dfind (dset d k v) k' = dfind d k' := by
  induction d with
  | nil =>
      simp only [dset, dfind, List.find?]
      have : (k == k') = false := by
        simp only [beq_eq_false_iff_ne, ne_eq]
        exact fun hk => h hk.symm
      simp [this]
  | cons a rest ih =>
      simp only [dset]
      by_cases hk : a.1 = k
      · simp only [hk, beq_self_eq_true, if_true]
        simp only [dfind, List.find?]
        have h1 : (k == k') = false := by
          simp only [beq_eq_false_iff_ne, ne_eq]
          exact fun hkk => h hkk.symm
        have h2 : (a.1 == k') = false := by
          simp only [beq_eq_false_iff_ne, ne_eq, hk]
          exact fun hkk => h hkk.symm
        simp [h1, h2]
      · have hk' : (a.1 == k) = false := by simp [hk]
        simp only [hk', if_false]
        by_cases ha : a.1 = k'
        · simp [dfind, List.find?, ha]
        · have ha' : (a.1 == k') = false := by simp [ha]
          simp only [dfind, List.find?, ha']
          exact ih

/-- Folding `maxRecStep` from a `some` accumulator never yields `none`. -/
theorem foldl_maxRecStep_isSome (l : Ledger) :
    ∀ a : TradeRecord, (l.foldl maxRecStep (some a)).isSome := by
  induction l with
  | nil => intro a; rfl
  | cons r rest ih =>
      intro a
      simp only [List.foldl_cons, maxRecStep]
      by_cases hge : r.id ≥ a.id
      · simp only [hge, if_true]; exact ih r
      · simp only [hge, if_false]; exact ih a

/-- The record selected by the fold comes from the list or from the
accumulator. -/
theorem foldl_maxRecStep_mem (l : Ledger) :
    ∀ (acc : Option TradeRecord) (m : TradeRecord),
      l.foldl maxRecStep acc = some m → m ∈ l ∨ acc = some m := by
  induction l with
  | nil => intro acc m h; right; exact h
  | cons r rest ih =>
      intro acc m h
      simp only [List.foldl_cons] at h
      rcases ih (maxRecStep acc r) m h with hm | hacc
      · exact Or.inl (List.mem_cons_of_mem _ hm)
      · cases acc with
        | none =>
            simp only [maxRecStep] at hacc
            cases hacc
            exact Or.inl (List.mem_cons_self _ _)
        | some a =>
            simp only [maxRecStep] at hacc
            by_cases hge : r.id ≥ a.id
            · simp only [hge, if_true] at hacc
              cases hacc
              exact Or.inl (List.mem_cons_self _ _)
            · simp only [hge, if_false] at hacc
              exact Or.inr hacc

/-- The record selected by the fold dominates every id in the list and in the
accumulator. -/
theorem foldl_maxRecStep_ge (l : Ledger) :
    ∀ (acc : Option TradeRecord) (m : TradeRecord),
      l.foldl maxRecStep acc = some m →
      (∀ x ∈ l, x.id ≤ m.id) ∧ (∀ a, acc = some a → a.id ≤ m.id) := by
  induction l with
  | nil =>
      intro acc m h
      refine ⟨by simp, fun a ha => ?_⟩
      rw [ha] at h
      cases h
      exact Nat.le_refl _
  | cons r rest ih =>
      intro acc m h
      simp only [List.foldl_cons] at h
      obtain ⟨hrest, hacc⟩ := ih (maxRecStep acc r) m h
      have hr : r.id ≤ m.id := by
        cases acc with
        | none => exact hacc r rfl
        | some a =>
            by_cases hge : r.id ≥ a.id
            · exact hacc r (by simp [maxRecStep, hge])
            · exact Nat.le_trans (Nat.le_of_not_le hge)
                (hacc a (by simp [maxRecStep, hge]))
      refine ⟨fun x hx => ?_, fun a ha => ?_⟩
      · rcases List.mem_cons.mp hx with rfl | hx'
        · exact hr
        · exact hrest x hx'
      · cases acc with
        | none => cases ha
        | some b =>
            cases ha
            by_cases hge : r.id ≥ a.id
            · exact Nat.le_trans hge hr
            · exact hacc a (by simp [maxRecStep, hge])

/-- On a ledger with ids 1..n, the modelled `get_latest_position` reports
sequence id n. -/
theorem get_latest_position_good (c : Rat) (l : Ledger) (h : goodIds l) :
    (get_latest_position c l).2 = l.length := by
  cases l with
  | nil => rfl
  | cons r rest =>
      have hsome : (maxRec (r :: rest)).isSome := by
        simp only [maxRec, List.foldl_cons, maxRecStep]
        exact foldl_maxRecStep_isSome rest r
      obtain ⟨m, hm⟩ := Option.isSome_iff_exists.mp hsome
      have hmem : m ∈ r :: rest := by
        rcases foldl_maxRecStep_mem (r :: rest) none m hm with h' | h'
        · exact h'
        · cases h'
      have hdom := (foldl_maxRecStep_ge (r :: rest) none m hm).1
      have hm_le : m.id ≤ (r :: rest).length := by
        have : m.id ∈ seqIds (r :: rest) := List.mem_map_of_mem TradeRecord.id hmem
        rw [h] at this
        exact Nat.lt_succ_iff.mp (by simpa [Nat.add_comm] using (List.mem_range'_1.mp this).2)
      have hm_ge : (r :: rest).length ≤ m.id := by
        have hlen : (r :: rest).length ∈ seqIds (r :: rest) := by
          rw [h]
          refine List.mem_range'_1.mpr ⟨Nat.succ_le_succ (Nat.zero_le _), ?_⟩
          simp [Nat.lt_succ_iff]
        obtain ⟨x, hx, hxid⟩ := List.mem_map.mp hlen
        calc (r :: rest).length = x.id := hxid.symm
          _ ≤ m.id := hdom x hx
      simp only [get_latest_position, maxRec] at hm ⊢
      rw [hm]
      exact Nat.le_antisymm hm_le hm_ge

/-- Appending a record with id = length + 1 preserves `goodIds`. -/
theorem goodIds_append (l : Ledger) (r : TradeRecord) (h : goodIds l)
    (hid : r.id = l.length + 1) : goodIds (l ++ [r]) := by
  unfold goodIds seqIds at h ⊢
  rw [List.map_append, h, List.length_append]
  simp only [List.map_cons, List.map_nil, List.length_cons, List.length_nil]
  rw [List.range'_concat]
  simp [hid, Nat.add_comm]

/-- One `buy` call either leaves the ledger unchanged or appends exactly one
record whose sequence id is the previously latest sequence id plus one. -/
theorem buy_ledger_step (env : Env) (l : Ledger) (s : String) (a : Int) :
    (buy env l s a).ledger = l ∨
    ∃ r : TradeRecord, r.id = (get_latest_position env.initCash l).2 + 1 ∧
      (buy env l s a).ledger = l ++ [r] := by
  unfold buy
  cases env.signature with
  | none => exact Or.inl rfl
  | some sig =>
      by_cases hamt : a ≤ 0
      · simp only [hamt, if_true]
        exact Or.inl trivial
      · simp only [hamt, if_false]
        cases env.connectErr with
        | some e => exact Or.inl rfl
        | none =>
            simp only
            unfold buyAfterRead
            cases env.priceOf s with
            | none => exact Or.inl rfl
            | some price =>
                simp only
                by_cases hcash :
                    dget (get_latest_position env.initCash l).1 "CASH" 0 <
                      price * (a : Rat)
                · simp only [hcash, if_true]
                  exact Or.inl trivial
                · simp only [hcash, if_false]
                  by_cases hsucc :
                      (execute_ib_order env.gateway s a "BUY").success = false
                  · simp only [hsucc, if_true]
                    exact Or.inl trivial
                  · simp only [hsucc, if_false]
                    cases env.appendErr with
                    | some m => exact Or.inl rfl
                    | none => exact Or.inr ⟨_, rfl, rfl⟩

/-- One `sell` call either leaves the ledger unchanged or appends exactly one
record whose sequence id is the previously latest sequence id plus one. -/
theorem sell_ledger_step (env : Env) (l : Ledger) (s : String) (a : Int) :
    (sell env l s a).ledger = l ∨
    ∃ r : TradeRecord, r.id = (get_latest_position env.initCash l).2 + 1 ∧
      (sell env l s a).ledger = l ++ [r] := by
  unfold sell
  cases env.signature with
  | none => exact Or.inl rfl
  | some sig =>
      by_cases hamt : a ≤ 0
      · simp only [hamt, if_true]
        exact Or.inl trivial
      · simp only [hamt, if_false]
        cases env.connectErr with
        | some e => exact Or.inl rfl
        | none =>
            simp only
            by_cases hmem :
                dmem (get_latest_position env.initCash l).1 s = false
            · simp only [hmem, if_true]
              exact Or.inl trivial
            · simp only [hmem, if_false]
              by_cases hqty :
                  dget (get_latest_position env.initCash l).1 s 0 < (a : Rat)
              · simp only [hqty, if_true]
                exact Or.inl rfl
              · simp only [hqty, if_false]
                cases env.priceOf s with
                | none => exact Or.inl rfl
                | some price =>
                    simp only
                    by_cases hrem : env.remotePos s < a
                    · simp only [hrem, if_true]
                      exact Or.inl rfl
                    · simp only [hrem, if_false]
                      by_cases hsucc :
                          (execute_ib_order env.gateway s a "SELL").success = false
                      · simp only [hsucc, if_true]
                        exact Or.inl rfl
                      · simp only [hsucc, if_false]
                        cases env.appendErr with
                        | some m => exact Or.inl rfl
                        | none => exact Or.inr ⟨_, rfl, rfl⟩

/-- Running any single buy/sell request preserves `goodIds`. -/
theorem step_goodIds (op : OpReq) (l : Ledger) (h : goodIds l) :
    goodIds (if op.isBuy then buy op.env l op.symbol op.amount
             else sell op.env l op.symbol op.amount).ledger := by
  have hlen := get_latest_position_good op.env.initCash l h
  by_cases hb : op.isBuy
  · simp only [hb, if_true]
    rcases buy_ledger_step op.env l op.symbol op.amount with h' | ⟨r, hr, h'⟩
    · rw [h']; exact h
    · rw [h']; exact goodIds_append l r h (by rw [hr, hlen])
  · simp only [hb, Bool.false_eq_true, if_false]
    rcases sell_ledger_step op.env l op.symbol op.amount with h' | ⟨r, hr, h'⟩
    · rw [h']; exact h
    · rw [h']; exact goodIds_append l r h (by rw [hr, hlen])

/-- Environment for a double-spend scenario: initial cash 100, reference
price 30 for XYZ, gateway fills at 30. One buy of 2 shares costs 60; two
such buys jointly overspend the 100 of cash. -/
def envDouble : Env :=
  { envOk with
    initCash := 100
    gateway := gwFilled30
    priceOf := fun s => if s == "XYZ" then some 30 else none }

/-- Environment in which the ledger append raises an I/O error. -/
def envAppendFail : Env :=
  { envOk with appendErr := some "disk full" }

/-- Account-summary environment where connect succeeds but reading the
account values raises. -/
def summaryEnvFetchFail : SummaryEnv :=
  { connectErr := none, fetchErr := some "boom"
    accountValues := [], positions := [] }

/-! Claim theorems. -/

/-- C1: divergence of the code from the claim, evaluated at a concrete
failing input. The gateway reports a successful (Filled) execution with
zero/unknown fill price; the success dict produced by `_execute_ib_order`
always contains the `fill_price` key (here with value 0), so the
`execution_result.get("fill_price", this_symbol_price)` fallback in `buy`
never triggers: the trade settles at `actual_price` 0 and cash is left at
10000, instead of settling at the reference price 50 with a cash delta of
500 as the claim (and the code's own comment) states. -/
theorem C1_zero_fill_settles_at_zero_not_reference :
    (execute_ib_order gwFilledZero "XYZ" 10 "BUY").success = true ∧
    (execute_ib_order gwFilledZero "XYZ" 10 "BUY").fill_price = some 0 ∧
    (buy { envOk with gateway := gwFilledZero } [] "XYZ" 10).outcome =
      .okResult [("CASH", 10000), ("XYZ", 10)]
        (execute_ib_order gwFilledZero "XYZ" 10 "BUY") 0 := by
  decide

/-- C2 counterexample: a sell with insufficient local shares (10 held, 100
requested) nevertheless calls the Exchange Gateway: `connect` occurs before
the local-holdings check. The claim's "without making any call to the
Exchange Gateway (including connect)" is therefore false on the code. -/
theorem C2_counterexample_connect_is_called :
    (sell envOk ledger1 "XYZ" 100).outcome =
      .errResult { error := "Insufficient shares (local record)"
                   haveShares := some 10, want_to_sell := some 100
                   symbol := some "XYZ", date := some "2025-01-02" } ∧
    Ev.connect ∈ (sell envOk ledger1 "XYZ" 100).events := by
  decide

/-- C3 counterexample: from initial cash 100, two buys of 2 XYZ at price 30
(cost 60 each, 120 jointly) executed in the schedule read-read-commit-commit
— a schedule the code's locking permits, since the per-identity lock is
released between the ledger read and the ledger append — BOTH succeed, and
the two appended records even carry the same sequence id 1. This refutes
"exactly one succeeds and the other observes the post-commit state of the
first". -/
theorem C3_counterexample_two_buys_both_succeed :
    (twoBuysReadsFirst envDouble envDouble [] "XYZ" 2 "XYZ" 2).1.outcome =
      .okResult [("CASH", 40), ("XYZ", 2)]
        (execute_ib_order gwFilled30 "XYZ" 2 "BUY") 30 ∧
    (twoBuysReadsFirst envDouble envDouble [] "XYZ" 2 "XYZ" 2).2.outcome =
      .okResult [("CASH", 40), ("XYZ", 2)]
        (execute_ib_order gwFilled30 "XYZ" 2 "BUY") 30 ∧
    seqIds (twoBuysReadsFirst envDouble envDouble [] "XYZ" 2 "XYZ" 2).2.ledger =
      [1, 1] ∧
    (30 : Rat) * 2 + 30 * 2 > 100 := by
  decide

/-- C4: divergence of the code from the claim, evaluated at a concrete
failing input. In `get_ib_account_summary`, when connect succeeds and the
subsequent account-value fetch raises, the generic exception handler returns
the failure dict without ever calling disconnect: the event trace contains
the connect but no disconnect, so the session is leaked, contradicting
"disconnect is called exactly once ... on every abort/error path alike"
(which `buy` and `sell` do honour). -/
theorem C4_account_summary_error_path_leaks_session :
    get_ib_account_summary summaryEnvFetchFail =
      { outcome := .failure "boom", events := [Ev.connect] } ∧
    Ev.disconnect ∉ (get_ib_account_summary summaryEnvFetchFail).events := by
  decide

/-- C5 counterexample: the gateway execution succeeds but the ledger append
fails; `buy` returns the generic catch-all dict
"Unexpected error: disk full" carrying only symbol and date — its
`execution_details` field is absent — rather than a distinct, loudly-flagged
error including the gateway's execution details as the claim states. -/
theorem C5_counterexample_generic_error_without_details :
    (execute_ib_order envAppendFail.gateway "XYZ" 10 "BUY").success = true ∧
    (buy envAppendFail ledger1 "XYZ" 10).outcome =
      .errResult { error := "Unexpected error: disk full"
                   symbol := some "XYZ", date := some "2025-01-02" } := by
  decide

/-- C7: the spec's sell scenario, computed on the embedded code. From
CASH 9500 and 10 XYZ at sequence id 1, a successful sell of 4 XYZ at fill
price 55 yields CASH 9720 and 6 XYZ at sequence id 2; the reported
commission 2 is recorded in the trade record but not deducted from cash. -/
theorem C7_sell_scenario_9720 :
    (sell envOk ledger1 "XYZ" 4).outcome =
      .okResult [("CASH", 9720), ("XYZ", 6)]
        (execute_ib_order gwFilled55 "XYZ" 4 "SELL") 55 ∧
    (sell envOk ledger1 "XYZ" 4).ledger = ledger1 ++
      [{ date := some "2025-01-02", id := 2, action := "sell", symbol := "XYZ"
         amount := 4, ib_order_id := some 7, fill_price := 55, commission := 2
         positions := [("CASH", 9720), ("XYZ", 6)]
         ib_execution := execute_ib_order gwFilled55 "XYZ" 4 "SELL" }] := by
  decide

/-- C2 (amended): for every sell request on insufficient local holdings
(symbol absent or fewer than `amount` shares), given the signature is set,
the amount is positive and the gateway connect succeeds, the operation
returns the corresponding InsufficientShares-class error dict, appends no
ledger record, and performs no order placement — but the gateway session IS
opened (connect) before the check and disconnected before returning. -/
theorem C2_amended_insufficient_sell_no_order_no_append
    (env : Env) (ledger : Ledger) (symbol : String) (amount : Int) (s : String)
    (hsig : env.signature = some s) (hamt : ¬ amount ≤ 0)
    (hconn : env.connectErr = none)
    (hins : dmem (get_latest_position env.initCash ledger).1 symbol = false ∨
      dget (get_latest_position env.initCash ledger).1 symbol 0 < (amount : Rat)) :
    (∃ e : ErrDict, (sell env ledger symbol amount).outcome = .errResult e ∧
      (e.error = "No position for " ++ symbol ∨
       e.error = "Insufficient shares (local record)")) ∧
    (sell env ledger symbol amount).events =
      [Ev.connect, Ev.lockAcquire, Ev.ledgerRead, Ev.lockRelease, Ev.disconnect] ∧
    (sell env ledger symbol amount).ledger = ledger := by
  unfold sell
  rw [hsig, hconn]
  by_cases hmem : dmem (get_latest_position env.initCash ledger).1 symbol = false
  · refine ⟨⟨{ error := "No position for " ++ symbol,
               symbol := some symbol, date := env.today_date }, ?_, Or.inl rfl⟩,
           ?_, ?_⟩ <;>
      simp only [hamt, if_false, hmem, if_true, List.cons_append, List.nil_append]
  · have hmem' : dmem (get_latest_position env.initCash ledger).1 symbol = true := by
      simpa using hmem
    have hlt : dget (get_latest_position env.initCash ledger).1 symbol 0 < (amount : Rat) := by
      rcases hins with h | h
      · exact absurd h hmem
      · exact h
    refine ⟨⟨{ error := "Insufficient shares (local record)",
               haveShares := some (dget (get_latest_position env.initCash ledger).1 symbol 0),
               want_to_sell := some amount,
               symbol := some symbol, date := env.today_date }, ?_, Or.inr rfl⟩,
           ?_, ?_⟩ <;>
      simp only [hamt, if_false, hmem', Bool.true_eq_false, hlt, if_true,
                 List.cons_append, List.nil_append]

/-- C3 (amended): the per-identity gate is NOT held continuously across the
read-validate-execute-commit sequence: a successful buy acquires and
releases the lock twice — once around the ledger read, once around the
ledger append — and the order is placed with the lock released (the
`lockRelease` at position 3 precedes the `orderPlace` at position 5).
Consequently two concurrent buys that jointly overspend can both succeed
(see the counterexample theorem for the concrete double-spend). -/
theorem C3_amended_lock_released_between_read_and_commit
    (env : Env) (ledger : Ledger) (symbol : String) (amount : Int)
    (s : String) (price : Rat)
    (hsig : env.signature = some s) (hamt : ¬ amount ≤ 0)
    (hconn : env.connectErr = none) (hp : env.priceOf symbol = some price)
    (hcash : ¬ dget (get_latest_position env.initCash ledger).1 "CASH" 0 <
      price * (amount : Rat))
    (hsucc : ¬ (execute_ib_order env.gateway symbol amount "BUY").success = false)
    (happ : env.appendErr = none) :
    (buy env ledger symbol amount).events =
      [Ev.connect, Ev.lockAcquire, Ev.ledgerRead, Ev.lockRelease,
       Ev.priceLookup, Ev.orderPlace, Ev.lockAcquire, Ev.ledgerAppend,
       Ev.lockRelease, Ev.ifTradeWrite, Ev.disconnect] := by
  unfold buy buyAfterRead
  rw [hsig, hconn, hp, happ]
  simp only [hamt, hcash, hsucc, Bool.true_eq_false, if_false,
             List.cons_append, List.nil_append]

/-- C5 (amended): when the ledger append fails after the gateway has
successfully executed the trade, `buy` and `sell` land in the generic
catch-all handler and return the plain "Unexpected error: ..." dict carrying
only symbol and date — WITHOUT the gateway's execution details
(`execution_details` is absent from the dict) — and no ledger record is
appended. The two halves are independent: the buy conclusion needs only the
buy preconditions (advisory cash check passes, BUY order succeeds) and the
sell conclusion only the sell preconditions (local holdings and remote
position suffice, SELL order succeeds); the shared hypotheses are the ones
common to reaching the append in either operation (signature set, positive
amount, connect ok, reference price present, append raising). -/
theorem C5_amended_append_failure_generic_error
    (env : Env) (ledger : Ledger) (symbol : String) (amount : Int)
    (s msg : String) (price : Rat)
    (hsig : env.signature = some s) (hamt : ¬ amount ≤ 0)
    (hconn : env.connectErr = none) (hp : env.priceOf symbol = some price)
    (happ : env.appendErr = some msg) :
    (¬ dget (get_latest_position env.initCash ledger).1 "CASH" 0 <
        price * (amount : Rat) →
     ¬ (execute_ib_order env.gateway symbol amount "BUY").success = false →
     (buy env ledger symbol amount).outcome =
       .errResult { error := "Unexpected error: " ++ msg
                    symbol := some symbol, date := env.today_date } ∧
     (buy env ledger symbol amount).ledger = ledger) ∧
    (dmem (get_latest_position env.initCash ledger).1 symbol = true →
     ¬ dget (get_latest_position env.initCash ledger).1 symbol 0 < (amount : Rat) →
     ¬ env.remotePos symbol < amount →
     ¬ (execute_ib_order env.gateway symbol amount "SELL").success = false →
     (sell env ledger symbol amount).outcome =
       .errResult { error := "Unexpected error: " ++ msg
                    symbol := some symbol, date := env.today_date } ∧
     (sell env ledger symbol amount).ledger = ledger) := by
  constructor
  · intro hcash hbuyok
    constructor
    · unfold buy buyAfterRead
      rw [hsig, hconn, hp, happ]
      simp only [hamt, hcash, hbuyok, Bool.true_eq_false, if_false]
    · unfold buy buyAfterRead
      rw [hsig, hconn, hp, happ]
      simp only [hamt, hcash, hbuyok, Bool.true_eq_false, if_false]
  · intro hmem hqty hrem hsellok
    constructor
    · unfold sell
      rw [hsig, hconn, hp, happ]
      simp only [hamt, hmem, hqty, hrem, hsellok, Bool.true_eq_false, if_false]
    · unfold sell
      rw [hsig, hconn, hp, happ]
      simp only [hamt, hmem, hqty, hrem, hsellok, Bool.true_eq_false, if_false]

/-- C6: for every sequence of buy/sell operations on one identity starting
from a ledger whose sequence ids are exactly 1..n (in particular the empty
ledger), the resulting ledger's sequence ids are again exactly 1..m: each
appended TradeRecord carries the previously latest sequence id plus one, so
the ids form a strictly increasing sequence with no gaps or duplicates. -/
theorem C6_sequence_ids_gapless (ops : List OpReq) :
    ∀ l : Ledger, goodIds l → goodIds (runOps l ops) := by
  induction ops with
  | nil => intro l h; exact h
  | cons op rest ih =>
      intro l h
      exact ih _ (step_goodIds op l h)

/-- C8: a buy with non-positive amount is rejected during validation,
before any external call: the result is the InvalidArgument-class error
dict, the event trace is empty (no gateway connect, no order placement),
and no ledger record is appended. -/
theorem C8_nonpositive_buy_rejected_before_any_call
    (env : Env) (ledger : Ledger) (symbol : String) (amount : Int) (s : String)
    (hsig : env.signature = some s) (hamt : amount ≤ 0) :
    buy env ledger symbol amount =
      { outcome := .errResult
          { error := "Amount must be positive"
            symbol := some symbol, date := env.today_date }
        events := [], ledger := ledger } := by
  unfold buy
  rw [hsig]
  simp only [hamt, if_true]

/-- C9: when the SIGNATURE configuration value is absent, both `buy` and
`sell` raise `ValueError` (instead of returning an error dict) before any
gateway call or ledger access: the event trace is empty and the ledger is
untouched. -/
theorem C9_missing_signature_raises_valueerror
    (env : Env) (ledger : Ledger) (symbol : String) (amount : Int)
    (hsig : env.signature = none) :
    buy env ledger symbol amount =
      { outcome := .raisedValueError "SIGNATURE environment variable is not set"
        events := [], ledger := ledger } ∧
    sell env ledger symbol amount =
      { outcome := .raisedValueError "SIGNATURE environment variable is not set"
        events := [], ledger := ledger } := by
  unfold buy sell
  rw [hsig]
  exact ⟨rfl, rfl⟩

/-- C10: frame property. A successful buy (resp. sell) of `symbol` changes
at most the CASH entry and the `symbol` entry of the position snapshot:
every other symbol's binding in the resulting snapshot is identical to its
binding in the snapshot read at the start of the operation. The buy half
and the sell half are independent implications: each quantifies over every
run of its own operation that returns the updated-position dict, with no
assumption about the other operation. -/
theorem C10_other_symbols_unchanged
    (env : Env) (ledger : Ledger) (symbol : String) (amount : Int) (s : String)
    (hs1 : s ≠ "CASH") (hs2 : s ≠ symbol) :
    (∀ (pb : Position) (eb : ExecResult) (ab : Rat),
      (buy env ledger symbol amount).outcome = .okResult pb eb ab →
      dfind pb s = dfind (get_latest_position env.initCash ledger).1 s) ∧
    (∀ (ps : Position) (es : ExecResult) (aps : Rat),
      (sell env ledger symbol amount).outcome = .okResult ps es aps →
      dfind ps s = dfind (get_latest_position env.initCash ledger).1 s) := by
  constructor
  · intro pb eb ab hob
    unfold buy buyAfterRead at hob
    cases hsig : env.signature with
    | none => rw [hsig] at hob; cases hob
    | some sg =>
        rw [hsig] at hob
        by_cases hamt : amount ≤ 0
        · simp only [hamt, if_true] at hob; cases hob
        · simp only [hamt, if_false] at hob
          cases hconn : env.connectErr with
          | some e => rw [hconn] at hob; cases hob
          | none =>
              rw [hconn] at hob
              simp only at hob
              cases hp : env.priceOf symbol with
              | none => rw [hp] at hob; cases hob
              | some price =>
                  rw [hp] at hob
                  simp only at hob
                  by_cases hcash : dget (get_latest_position env.initCash ledger).1 "CASH" 0 <
                      price * (amount : Rat)
                  · simp only [hcash, if_true] at hob; cases hob
                  · simp only [hcash, if_false] at hob
                    by_cases hsucc : (execute_ib_order env.gateway symbol amount "BUY").success = false
                    · simp only [hsucc, if_true] at hob; cases hob
                    · simp only [hsucc, Bool.true_eq_false, if_false] at hob
                      cases happ : env.appendErr with
                      | some m => rw [happ] at hob; cases hob
                      | none =>
                          rw [happ] at hob
                          simp only [TradeOutcome.okResult.injEq] at hob
                          obtain ⟨h1, -, -⟩ := hob
                          subst h1
                          rw [dfind_dset_ne _ symbol s _ hs2,
                              dfind_dset_ne _ "CASH" s _ hs1]
  · intro ps es aps hos
    unfold sell at hos
    cases hsig : env.signature with
    | none => rw [hsig] at hos; cases hos
    | some sg =>
        rw [hsig] at hos
        by_cases hamt : amount ≤ 0
        · simp only [hamt, if_true] at hos; cases hos
        · simp only [hamt, if_false] at hos
          cases hconn : env.connectErr with
          | some e => rw [hconn] at hos; cases hos
          | none =>
              rw [hconn] at hos
              simp only at hos
              by_cases hmem : dmem (get_latest_position env.initCash ledger).1 symbol = false
              · simp only [hmem, if_true] at hos; cases hos
              · have hmem' : dmem (get_latest_position env.initCash ledger).1 symbol = true := by
                  simpa using hmem
                simp only [hmem', Bool.true_eq_false, if_false] at hos
                by_cases hqty : dget (get_latest_position env.initCash ledger).1 symbol 0 < (amount : Rat)
                · simp only [hqty, if_true] at hos; cases hos
                · simp only [hqty, if_false] at hos
                  cases hp : env.priceOf symbol with
                  | none => rw [hp] at hos; cases hos
                  | some price =>
                      rw [hp] at hos
                      simp only at hos
                      by_cases hrem : env.remotePos symbol < amount
                      · simp only [hrem, if_true] at hos; cases hos
                      · simp only [hrem, if_false] at hos
                        by_cases hsucc : (execute_ib_order env.gateway symbol amount "SELL").success = false
                        · simp only [hsucc, if_true] at hos; cases hos
                        · simp only [hsucc, Bool.true_eq_false, if_false] at hos
                          cases happ : env.appendErr with
                          | some m => rw [happ] at hos; cases hos
                          | none =>
                              rw [happ] at hos
                              simp only [TradeOutcome.okResult.injEq] at hos
                              obtain ⟨h1, -, -⟩ := hos
                              subst h1
                              rw [dfind_dset_ne _ "CASH" s _ hs1,
                                  dfind_dset_ne _ symbol s _ hs2]

/-! Witnesses: each applies the corresponding hypothesis-bearing theorem at
a concrete input, discharging every hypothesis there. -/

/-- Witness for the amended C2 at a concrete input: selling 100 XYZ while
holding 10. -/
theorem C2_amended_witness :
    envOk.signature = some "agent1" ∧ ¬ (100 : Int) ≤ 0 ∧
    envOk.connectErr = none ∧
    (dmem (get_latest_position envOk.initCash ledger1).1 "XYZ" = false ∨
      dget (get_latest_position envOk.initCash ledger1).1 "XYZ" 0 < ((100 : Int) : Rat)) ∧
    ((∃ e : ErrDict, (sell envOk ledger1 "XYZ" 100).outcome = .errResult e ∧
        (e.error = "No position for " ++ "XYZ" ∨
         e.error = "Insufficient shares (local record)")) ∧
      (sell envOk ledger1 "XYZ" 100).events =
        [Ev.connect, Ev.lockAcquire, Ev.ledgerRead, Ev.lockRelease, Ev.disconnect] ∧
      (sell envOk ledger1 "XYZ" 100).ledger = ledger1) :=
  ⟨rfl, by decide, rfl, Or.inr (by decide),
   C2_amended_insufficient_sell_no_order_no_append envOk ledger1 "XYZ" 100
     "agent1" rfl (by decide) rfl (Or.inr (by decide))⟩

/-- Witness for the amended C3 at a concrete input: a successful buy of 10
XYZ from an empty ledger. -/
theorem C3_amended_witness :
    envOk.signature = some "agent1" ∧ ¬ (10 : Int) ≤ 0 ∧
    envOk.connectErr = none ∧ envOk.priceOf "XYZ" = some 50 ∧
    ¬ dget (get_latest_position envOk.initCash ([] : Ledger)).1 "CASH" 0 <
      50 * ((10 : Int) : Rat) ∧
    ¬ (execute_ib_order envOk.gateway "XYZ" 10 "BUY").success = false ∧
    envOk.appendErr = none ∧
    (buy envOk [] "XYZ" 10).events =
      [Ev.connect, Ev.lockAcquire, Ev.ledgerRead, Ev.lockRelease,
       Ev.priceLookup, Ev.orderPlace, Ev.lockAcquire, Ev.ledgerAppend,
       Ev.lockRelease, Ev.ifTradeWrite, Ev.disconnect] :=
  ⟨rfl, by decide, rfl, by decide, by decide, by decide, rfl,
   C3_amended_lock_released_between_read_and_commit envOk [] "XYZ" 10
     "agent1" 50 rfl (by decide) rfl (by decide) (by decide) (by decide) rfl⟩

/-- Witness for the amended C5 at concrete inputs: the buy half on the
EMPTY ledger (a first buy of a symbol not yet held), the sell half on the
ledger holding CASH 9500 and 10 XYZ, both with the failing ledger append. -/
theorem C5_amended_witness :
    envAppendFail.signature = some "agent1" ∧ ¬ (4 : Int) ≤ 0 ∧
    envAppendFail.connectErr = none ∧
    envAppendFail.priceOf "XYZ" = some 50 ∧
    envAppendFail.appendErr = some "disk full" ∧
    ¬ dget (get_latest_position envAppendFail.initCash ([] : Ledger)).1 "CASH" 0 <
      50 * ((4 : Int) : Rat) ∧
    ¬ (execute_ib_order envAppendFail.gateway "XYZ" 4 "BUY").success = false ∧
    ((buy envAppendFail [] "XYZ" 4).outcome =
      .errResult { error := "Unexpected error: " ++ "disk full"
                   symbol := some "XYZ", date := some "2025-01-02" } ∧
     (buy envAppendFail [] "XYZ" 4).ledger = []) ∧
    dmem (get_latest_position envAppendFail.initCash ledger1).1 "XYZ" = true ∧
    ¬ dget (get_latest_position envAppendFail.initCash ledger1).1 "XYZ" 0 < ((4 : Int) : Rat) ∧
    ¬ envAppendFail.remotePos "XYZ" < 4 ∧
    ¬ (execute_ib_order envAppendFail.gateway "XYZ" 4 "SELL").success = false ∧
    ((sell envAppendFail ledger1 "XYZ" 4).outcome =
      .errResult { error := "Unexpected error: " ++ "disk full"
                   symbol := some "XYZ", date := some "2025-01-02" } ∧
     (sell envAppendFail ledger1 "XYZ" 4).ledger = ledger1) :=
  ⟨rfl, by decide, rfl, by decide, rfl, by decide, by decide,
   (C5_amended_append_failure_generic_error envAppendFail [] "XYZ" 4
     "agent1" "disk full" 50 rfl (by decide) rfl (by decide) rfl).1
     (by decide) (by decide),
   by decide, by decide, by decide, by decide,
   (C5_amended_append_failure_generic_error envAppendFail ledger1 "XYZ" 4
     "agent1" "disk full" 50 rfl (by decide) rfl (by decide) rfl).2
     (by decide) (by decide) (by decide) (by decide)⟩

/-- Witness for C6 at a concrete input: a buy of 10 XYZ then a sell of 4 XYZ
starting from the empty ledger yield sequence ids 1, 2. -/
theorem C6_witness :
    goodIds ([] : Ledger) ∧
    goodIds (runOps []
      [{ isBuy := true, symbol := "XYZ", amount := 10, env := envOk },
       { isBuy := false, symbol := "XYZ", amount := 4, env := envOk }]) :=
  ⟨rfl, C6_sequence_ids_gapless
    [{ isBuy := true, symbol := "XYZ", amount := 10, env := envOk },
     { isBuy := false, symbol := "XYZ", amount := 4, env := envOk }] [] rfl⟩

/-- Witness for C8 at a concrete input: a buy with amount 0. -/
theorem C8_witness :
    envOk.signature = some "agent1" ∧ (0 : Int) ≤ 0 ∧
    buy envOk ledger1 "XYZ" 0 =
      { outcome := .errResult
          { error := "Amount must be positive"
            symbol := some "XYZ", date := some "2025-01-02" }
        events := [], ledger := ledger1 } :=
  ⟨rfl, by decide,
   C8_nonpositive_buy_rejected_before_any_call envOk ledger1 "XYZ" 0
     "agent1" rfl (by decide)⟩

/-- Witness for C9 at a concrete input: the environment with no SIGNATURE. -/
theorem C9_witness :
    ({ envOk with signature := none } : Env).signature = none ∧
    (buy { envOk with signature := none } ledger1 "XYZ" 10 =
      { outcome := .raisedValueError "SIGNATURE environment variable is not set"
        events := [], ledger := ledger1 } ∧
     sell { envOk with signature := none } ledger1 "XYZ" 10 =
      { outcome := .raisedValueError "SIGNATURE environment variable is not set"
        events := [], ledger := ledger1 }) :=
  ⟨rfl, C9_missing_signature_raises_valueerror
    { envOk with signature := none } ledger1 "XYZ" 10 rfl⟩

/-- Witness for C10 at concrete inputs: the buy half on a first buy of 10
XYZ from the empty ledger (the XYZ key is created), the sell half on a sell
of 4 XYZ from CASH 9500 and 10 XYZ; in both, the binding of the unrelated
symbol AAPL is unchanged (absent before and after). -/
theorem C10_witness :
    ("AAPL" : String) ≠ "CASH" ∧ ("AAPL" : String) ≠ "XYZ" ∧
    (buy envOk [] "XYZ" 10).outcome =
      .okResult [("CASH", 9450), ("XYZ", 10)]
        (execute_ib_order gwFilled55 "XYZ" 10 "BUY") 55 ∧
    dfind [("CASH", 9450), ("XYZ", 10)] "AAPL" =
      dfind (get_latest_position envOk.initCash ([] : Ledger)).1 "AAPL" ∧
    (sell envOk ledger1 "XYZ" 4).outcome =
      .okResult [("CASH", 9720), ("XYZ", 6)]
        (execute_ib_order gwFilled55 "XYZ" 4 "SELL") 55 ∧
    dfind [("CASH", 9720), ("XYZ", 6)] "AAPL" =
      dfind (get_latest_position envOk.initCash ledger1).1 "AAPL" :=
  ⟨by decide, by decide, by decide,
   (C10_other_symbols_unchanged envOk [] "XYZ" 10 "AAPL"
      (by decide) (by decide)).1
     [("CASH", 9450), ("XYZ", 10)] (execute_ib_order gwFilled55 "XYZ" 10 "BUY")
     55 (by decide),
   by decide,
   (C10_other_symbols_unchanged envOk ledger1 "XYZ" 4 "AAPL"
      (by decide) (by decide)).2
     [("CASH", 9720), ("XYZ", 6)] (execute_ib_order gwFilled55 "XYZ" 4 "SELL")
     55 (by decide)⟩

end IBTrade
